import Mathlib

/-! Verification development for three Blender sources.

* `source/blender/python/intern/bpy_data.c`: the ID user map (`bpy_user_map`).
* `source/blender/editors/io/io_cache_library.c`: the cache library operators.
* `intern/opensubdiv/opensubdiv_converter_capi.h`: the converter callback table
  and the construction entry point of the topology refiner descriptor.

Pointers are addresses (`Nat`); a possibly-NULL pointer is an `Option`.
-/

namespace BpyData

/-! ## Data model of `bpy_data.c` -/

/-- Address of an `ID` datablock (never NULL). A Python wrapper made by
`pyrna_id_CreatePyObject` hashes and compares by this address, so a wrapper is
represented by the address it wraps. -/
abbrev ID := Nat

/-- Python `set` of ID wrappers: insertion-ordered, duplicate-free by `PySet_Add`. -/
abbrev PySet := List ID

/-- Python `dict` from ID wrappers to sets, as an insertion-ordered association list. -/
abbrev PyDict := List (ID × PySet)

/-- The function `PySet_New(NULL)`: a fresh empty set. -/
def PySet_New : PySet := []

/-- The function `PySet_Add(set, key)`: adding an element already present changes nothing. -/
def PySet_Add (set : PySet) (key : ID) : PySet :=
  if key ∈ set then set else set ++ [key]

/-- The function `PyDict_New()`. -/
def PyDict_New : PyDict := []

/-- The function `PyDict_GetItem(d, key)`: the value stored under `key`, or NULL. -/
def PyDict_GetItem (d : PyDict) (key : ID) : Option PySet :=
  match d with
  | [] => none
  | (k, v) :: rest => if k = key then some v else PyDict_GetItem rest key

/-- The function `PyDict_SetItem(d, key, val)`: replaces the value of an existing key, else
appends a new entry. -/
def PyDict_SetItem (d : PyDict) (key : ID) (val : PySet) : PyDict :=
  match d with
  | [] => [(key, val)]
  | (k, v) :: rest =>
    if k = key then (k, val) :: rest else (k, v) :: PyDict_SetItem rest key val

/-- A datablock of the database: its address and the sequence of `*id_p` values
(possibly NULL) that `BKE_library_foreach_ID_link` hands to the callback. -/
structure IDBlock where
  id : ID
  links : List (Option ID)
deriving DecidableEq, Repr

/-- The database `Main`, seen through `set_listbasepointers`: the array of
list bases, each a linked list of datablocks (`first`, `next`). -/
structure Main where
  lb_array : List (List IDBlock)
deriving DecidableEq, Repr

/-- The function `set_listbasepointers(bmain, lb_array)`, defined outside
these sources: it fills `lb_array` with the list bases of the database; its
return value is the number of entries. -/
def set_listbasepointers (bmain : Main) : List (List IDBlock) := bmain.lb_array

/-- The struct `IDUserMapData`. `py_id_curr` is NULL or the wrapper of a datablock. -/
structure IDUserMapData where
  id_curr : ID
  py_id_curr : Option ID
  user_map : PyDict
  is_restricted : Bool
deriving DecidableEq, Repr

/-- The function `pyrna_id_CreatePyObject(id)`. -/
def pyrna_id_CreatePyObject (id : ID) : ID := id

/-- The value of `data->py_id_curr` after the lazy
`if (data->py_id_curr == NULL) data->py_id_curr = pyrna_id_CreatePyObject(data->id_curr)`. -/
def ensure_py_id_curr (data : IDUserMapData) : ID :=
  match data.py_id_curr with
  | some py => py
  | none => pyrna_id_CreatePyObject data.id_curr

/-- The function `foreach_libblock_id_user_map_callback(user_data, id_p, cb_flag)`. The set
found in (or inserted into) the dict is mutated in place by `PySet_Add`, which
is the dict with that key rebound to the grown set. Returns the `bool` result
and the updated `*user_data`. -/
def foreach_libblock_id_user_map_callback (data : IDUserMapData) (id_p : Option ID) :
    Bool × IDUserMapData :=
  match id_p with
  | some id =>
    let key := pyrna_id_CreatePyObject id
    if data.is_restricted then
      match PyDict_GetItem data.user_map key with
      | some set =>
        let py := ensure_py_id_curr data
        (true, { data with py_id_curr := some py,
                           user_map := PyDict_SetItem data.user_map key (PySet_Add set py) })
      | none => (true, data)
    else
      let set_map : PySet × PyDict :=
        match PyDict_GetItem data.user_map key with
        | some set => (set, data.user_map)
        | none => (PySet_New, PyDict_SetItem data.user_map key PySet_New)
      let py := ensure_py_id_curr data
      (true, { data with py_id_curr := some py,
                         user_map := PyDict_SetItem set_map.2 key (PySet_Add set_map.1 py) })
  | none => (true, data)

/-- The function `BKE_library_foreach_ID_link(id, callback, user_data, flag)`,
defined outside these sources: it walks the outgoing references of the
datablock once, invoking the callback on each in turn, and returns as soon as
the callback answers `false`. -/
def BKE_library_foreach_ID_link (links : List (Option ID))
    (callback : IDUserMapData → Option ID → Bool × IDUserMapData)
    (user_data : IDUserMapData) : IDUserMapData :=
  match links with
  | [] => user_data
  | id_p :: rest =>
    let r := callback user_data id_p
    if r.1 then BKE_library_foreach_ID_link rest callback r.2 else r.2

/-- One positional argument of `user_map(*args)`: a datablock (a `bpy_struct`,
which is not iterable), or an iterable of datablocks such as
`bpy.data.objects`. -/
inductive PyArg where
  | datablock (id : ID)
  | iterable (elems : List ID)
deriving DecidableEq, Repr

/-- Exceptions of the interpreter that the call can leave or raise. -/
inductive PyExc where
  | TypeError
  | SystemError
deriving DecidableEq, Repr

/-- The body of `while ((sub_ref_id = PyIter_Next(sub_iter)))`. -/
def add_sub_refs (user_map : PyDict) (elems : List ID) : PyDict :=
  elems.foldl (fun d sub_ref_id => PyDict_SetItem d sub_ref_id PySet_New) user_map

/-- The body of `while ((ref_id = PyIter_Next(iter)))`, on the dict and the
pending exception of the interpreter. For an iterable `PyObject_GetIter` gives
the iterator and the elements become keys. For a datablock `PyObject_GetIter`
returns NULL and sets `TypeError`; the `else` branch then stores `ref_id`
itself as a key, and the `TypeError` stays pending: no `PyErr_Clear` follows,
and neither `PySet_New`, `PyDict_SetItem` nor `PyIter_Next` on the argument
tuple clears it. -/
def add_ref (st : PyDict × Option PyExc) (ref_id : PyArg) : PyDict × Option PyExc :=
  match ref_id with
  | .iterable sub_iter => (add_sub_refs st.1 sub_iter, st.2)
  | .datablock id => (PyDict_SetItem st.1 id PySet_New, some .TypeError)

/-- The body of the `for (ID *id = lb->first; id; id = id->next)` loop. -/
def user_map_visit (is_restricted : Bool) (user_map : PyDict) (id : IDBlock) : PyDict :=
  (BKE_library_foreach_ID_link id.links foreach_libblock_id_user_map_callback
    { id_curr := id.id, py_id_curr := none, user_map := user_map,
      is_restricted := is_restricted }).user_map

/-- What a C function of the Python API hands back: the returned object and
the pending exception of the interpreter at the return. -/
structure PyResult where
  value : PyDict
  err : Option PyExc
deriving DecidableEq, Repr

/-- The function `bpy_user_map(self, args)`. No exception is pending on entry.
`while (lb_idx--)` walks `lb_array` from its last entry down to its first; the
walk leaves the pending exception as it is (`PyDict_GetItem` preserves it, the
other calls do not touch it), and the function ends with `return user_map`
whether or not an exception is pending. -/
def bpy_user_map (bmain : Main) (args : List PyArg) : PyResult :=
  let user_map := PyDict_New
  let init : (PyDict × Option PyExc) × Bool :=
    if args.length ≠ 0 then (args.foldl add_ref (user_map, none), true)
    else ((user_map, none), false)
  let lb_array := set_listbasepointers bmain
  { value := lb_array.reverse.foldl (fun d lb => lb.foldl (user_map_visit init.2) d) init.1.1,
    err := init.1.2 }

/-- The call of the builtin `_data_user_map` that `BPY_data_module` registers
with `METH_VARARGS`, as a script sees it: the interpreter checks the result of
the C function, and a result returned with an exception pending makes the call
raise `SystemError`; otherwise the call evaluates to the returned dict. -/
def call_data_user_map (bmain : Main) (args : List PyArg) : Except PyExc PyDict :=
  match (bpy_user_map bmain args).err with
  | none => .ok (bpy_user_map bmain args).value
  | some _ => .error .SystemError

/-- The datablocks of the database, every list base of `set_listbasepointers`. -/
def datablocks (bmain : Main) : List IDBlock :=
  (set_listbasepointers bmain).foldr (fun lb acc => lb ++ acc) []

/-- Whether an argument is a bare datablock rather than an iterable. -/
def PyArg.isDatablock : PyArg → Bool
  | .datablock _ => true
  | .iterable _ => false

/-- The datablocks supplied by an argument tuple, iterables flattened one level. -/
def supplied (args : List PyArg) : List ID :=
  match args with
  | [] => []
  | .datablock id :: rest => id :: supplied rest
  | .iterable elems :: rest => elems ++ supplied rest

/-! ## Observations used to state and prove the properties -/

/-- What one callback invocation does to the value observed under key `k`. -/
def linkLookup (R : Bool) (cur : ID) (id_p : Option ID) (k : ID) (old : Option PySet) :
    Option PySet :=
  if id_p = some k then
    (if R then old.map (fun s => PySet_Add s cur) else some (PySet_Add (old.getD []) cur))
  else old

/-- Membership in the set observed under a key (nothing when the key is absent). -/
def memO (u : ID) (o : Option PySet) : Prop := ∃ s, o = some s ∧ u ∈ s

/-- The value observed under `k` after the walk of one datablock. -/
def blockLookup (R : Bool) (k : ID) (old : Option PySet) (b : IDBlock) : Option PySet :=
  b.links.foldl (fun o r => linkLookup R b.id r k o) old

/-- All datablocks of an array of list bases, in walking order. -/
def flattenBlocks (lbs : List (List IDBlock)) : List IDBlock :=
  lbs.foldr (fun lb acc => lb ++ acc) []

/-- The call `PyDict_Keys(d)`: the keys of a dict. -/
def PyDict_Keys (d : PyDict) : List ID := d.map Prod.fst

end BpyData

namespace CacheLibrary

/-! ## Data model of `io_cache_library.c`

The operators act on memory owned by other modules. That memory is a `World`:
the `CacheItem` structs by address, the user counts of the ID blocks, and the
trace of the calls made into the other modules. What those modules compute and
the constants of their headers are the fields of `Externals`. -/

/-- Address of a struct (never NULL); a possibly-NULL pointer is an `Option Ptr`. -/
abbrev Ptr := Nat

/-- The struct `CacheItem` of `DNA_cache_library_types.h`. The operators touch
`flag` only, an `int` held here as its bit pattern; the other members of the
struct are `ob`, `type` and `index`. -/
structure CacheItem where
  ob : Option Ptr
  type : Int
  index : Int
  flag : Nat
deriving DecidableEq, Repr

/-- A call into another module, with its arguments. -/
inductive Call where
  | BKE_cache_library_copy (cachelib : Ptr)
  | BKE_cache_library_add (bmain : Ptr) (name : String)
  | BKE_cache_library_add_item (cachelib obcache : Option Ptr) (type index : Int)
  | RNA_property_pointer_set (ptr prop id : Ptr)
  | RNA_property_update (ptr prop : Ptr)
  | WM_event_add_notifier (type : Nat) (reference : Option Ptr)
deriving DecidableEq, Repr

/-- Memory and call trace seen by the operators. -/
structure World where
  items : Ptr → CacheItem
  id_us : Ptr → Int
  calls : List Call

/-- Constants and functions of the headers included by `io_cache_library.c`
whose definitions are in other files: the flag `CACHE_ITEM_ENABLED`, the
operator return code `OPERATOR_FINISHED`, the notifier type `NC_OBJECT`, the
translation macro `DATA_`, and the results of the three `BKE_cache_library_*`
functions (the address returned, and for `add_item` also the item memory it
leaves behind). -/
structure Externals where
  CACHE_ITEM_ENABLED : Nat
  OPERATOR_FINISHED : Int
  NC_OBJECT : Nat
  DATA_ : String → String
  BKE_cache_library_copy : Ptr → Ptr
  BKE_cache_library_add : Ptr → String → Ptr
  BKE_cache_library_add_item :
    (Ptr → CacheItem) → Option Ptr → Option Ptr → Int → Int → (Ptr → CacheItem) × Ptr

/-- The context `bContext`: its data members by name (the `.data` of the
`PointerRNA` that `CTX_data_pointer_get_type` returns, NULL when the member is
absent or of another type), its `Main`, and the pointer and property that
`UI_context_active_but_prop_get_templateID` writes to its out-parameters. -/
structure bContext where
  data : String → Option Ptr
  bmain : Ptr
  templateID_ptr : Ptr
  templateID_prop : Option Ptr

/-- The operator `wmOperator`: the enum and int properties of `op->ptr` by name. -/
structure wmOperator where
  enum_props : String → Int
  int_props : String → Int

/-- The call `CTX_data_pointer_get_type(C, member, type).data`. -/
def CTX_data_pointer_get_type (C : bContext) (member : String) : Option Ptr := C.data member

/-- The call `CTX_data_main(C)`. -/
def CTX_data_main (C : bContext) : Ptr := C.bmain

/-- The call `RNA_enum_get(op->ptr, name)`. -/
def RNA_enum_get (op : wmOperator) (name : String) : Int := op.enum_props name

/-- The call `RNA_int_get(op->ptr, name)`. -/
def RNA_int_get (op : wmOperator) (name : String) : Int := op.int_props name

/-- Appends a call to the trace. -/
def World.call (W : World) (c : Call) : World := { W with calls := W.calls ++ [c] }

/-- The function `new_cachelib_exec(C, op)`; the operator argument is unused. -/
def new_cachelib_exec (X : Externals) (C : bContext) (_op : wmOperator) (W : World) :
    Int × World :=
  let cachelib := CTX_data_pointer_get_type C "cachelib"
  let bmain := CTX_data_main C
  -- add or copy
  let created : Ptr × World :=
    match cachelib with
    | some cl => (X.BKE_cache_library_copy cl, W.call (.BKE_cache_library_copy cl))
    | none =>
      (X.BKE_cache_library_add bmain (X.DATA_ "CacheLibrary"),
        W.call (.BKE_cache_library_add bmain (X.DATA_ "CacheLibrary")))
  let cachelib := created.1
  -- hook into UI
  let ptr := C.templateID_ptr
  let W2 : World :=
    match C.templateID_prop with
    | some prop =>
      let W1 : World :=
        { created.2 with
          id_us := fun p => if p = cachelib then created.2.id_us p - 1 else created.2.id_us p }
      (W1.call (.RNA_property_pointer_set ptr prop cachelib)).call
        (.RNA_property_update ptr prop)
    | none => created.2
  (X.OPERATOR_FINISHED, W2.call (.WM_event_add_notifier X.NC_OBJECT (some cachelib)))

/-- The function `cache_item_enable_poll(C)`. -/
def cache_item_enable_poll (C : bContext) : Bool :=
  let cachelib := CTX_data_pointer_get_type C "cachelib"
  let obcache := CTX_data_pointer_get_type C "cache_object"
  if cachelib.isNone || obcache.isNone then false
  else true

/-- The function `cache_item_enable_exec(C, op)`. -/
def cache_item_enable_exec (X : Externals) (C : bContext) (op : wmOperator) (W : World) :
    Int × World :=
  let cachelib := CTX_data_pointer_get_type C "cachelib"
  let obcache := CTX_data_pointer_get_type C "cache_object"
  let type := RNA_enum_get op "type"
  let index := RNA_int_get op "index"
  let added := X.BKE_cache_library_add_item W.items cachelib obcache type index
  let item := added.2
  let W1 : World :=
    { W with
      items := fun p =>
        if p = item then { added.1 p with flag := (added.1 p).flag ||| X.CACHE_ITEM_ENABLED }
        else added.1 p
      calls := W.calls ++ [.BKE_cache_library_add_item cachelib obcache type index] }
  (X.OPERATOR_FINISHED, W1.call (.WM_event_add_notifier X.NC_OBJECT cachelib))

/-- The item that `BKE_cache_library_add_item` returns to `cache_item_enable_exec`. -/
def exec_item (X : Externals) (C : bContext) (op : wmOperator) (W : World) : Ptr :=
  (X.BKE_cache_library_add_item W.items (CTX_data_pointer_get_type C "cachelib")
    (CTX_data_pointer_get_type C "cache_object") (RNA_enum_get op "type")
    (RNA_int_get op "index")).2

/-- The item memory that `BKE_cache_library_add_item` leaves to
`cache_item_enable_exec`. -/
def exec_memory (X : Externals) (C : bContext) (op : wmOperator) (W : World) :
    Ptr → CacheItem :=
  (X.BKE_cache_library_add_item W.items (CTX_data_pointer_get_type C "cachelib")
    (CTX_data_pointer_get_type C "cache_object") (RNA_enum_get op "type")
    (RNA_int_get op "index")).1

/-- The flag of that item as `BKE_cache_library_add_item` hands it over, before
the operator writes to it. -/
def exec_prior_flag (X : Externals) (C : bContext) (op : wmOperator) (W : World) : Nat :=
  ((X.BKE_cache_library_add_item W.items (CTX_data_pointer_get_type C "cachelib")
    (CTX_data_pointer_get_type C "cache_object") (RNA_enum_get op "type")
    (RNA_int_get op "index")).1 (exec_item X C op W)).flag

/-- The flag of that item once `cache_item_enable_exec` has run. -/
def exec_flag (X : Externals) (C : bContext) (op : wmOperator) (W : World) : Nat :=
  ((cache_item_enable_exec X C op W).2.items (exec_item X C op W)).flag

/-- The calls that create a cache library. -/
def Call.isCreation : Call → Bool
  | .BKE_cache_library_copy _ => true
  | .BKE_cache_library_add _ _ => true
  | _ => false

/-- Sample externals for the witnesses: `CACHE_ITEM_ENABLED` is bit 0,
`OPERATOR_FINISHED` is `1 << 2`, `DATA_` leaves the name as it is, and
`BKE_cache_library_add_item` finds the item at the address `index` without
writing to memory. -/
def sampleExternals : Externals where
  CACHE_ITEM_ENABLED := 1
  OPERATOR_FINISHED := 4
  NC_OBJECT := 5
  DATA_ := fun s => s
  BKE_cache_library_copy := fun p => p + 100
  BKE_cache_library_add := fun _ _ => 200
  BKE_cache_library_add_item := fun items _ _ _ index => (items, index.toNat)

/-- Sample context: cache library at address 10, object at address 20. -/
def sampleContext : bContext where
  data := fun m => if m = "cachelib" then some 10 else if m = "cache_object" then some 20 else none
  bmain := 1
  templateID_ptr := 2
  templateID_prop := none

/-- Sample operator: `type` 0, `index` 3. -/
def sampleOperator : wmOperator where
  enum_props := fun _ => 0
  int_props := fun _ => 3

/-- Sample memory in which every item has the given flag. -/
def sampleWorld (flag : Nat) : World where
  items := fun _ => { ob := some 20, type := 0, index := 3, flag := flag }
  id_us := fun _ => 1
  calls := []

end CacheLibrary

namespace OpenSubdiv

/-! ## Data model of `opensubdiv_converter_capi.h`

The header declares the callback table and the construction entry point; the
body of the entry point is in a file that is not part of the sources at hand,
so the ingestion it performs is modelled from the design text. -/

/-- The callback table `OpenSubdiv_Converter`. A callback is a pure function of
the converter (and so of its `user_data`) and of an index; a callback that
fills an out-buffer is the value it writes to each slot of the buffer. -/
structure OpenSubdiv_Converter where
  get_num_faces : Int
  get_num_edges : Int
  get_num_verts : Int
  get_num_face_verts : Int → Int
  get_face_verts : Int → Nat → Int
  get_face_edges : Int → Nat → Int
  get_edge_verts : Int → Nat → Int
  get_num_edge_faces : Int → Int
  get_edge_faces : Int → Nat → Int
  get_num_vert_edges : Int → Int
  get_vert_edges : Int → Nat → Int
  get_num_vert_faces : Int → Int
  get_vert_faces : Int → Nat → Int

/-- Modelled from the spec: the failure taxonomy of the ingestion pass, which
is not in the header: degenerate input (a zero count, a face of degree below
3), malformed adjacency (a failed symmetry cross-check), unsupported topology
(a non-manifold edge the refinement scheme cannot process) and resource
(allocation failure while building the tables). Memory is not part of this
embedding: the tables are lists, whose construction cannot fail, so no
converter makes the modelled pass end in `resource`; the class is listed
because the taxonomy names it. -/
inductive FailureClass where
  | degenerateInput
  | malformedAdjacency
  | unsupportedTopology
  | resource
deriving DecidableEq, Repr

/-- Modelled from the spec: the class of an edge by its number of incident
faces, 1 boundary, 2 manifold interior, more than 2 non-manifold. -/
inductive EdgeClass where
  | boundary
  | manifoldInterior
  | nonManifold
deriving DecidableEq, Repr

/-- Modelled from the spec: the boundary loop recorded for a face, its vertex
and edge sequences in the order reported. -/
structure FaceRecord where
  verts : List Int
  edges : List Int
deriving DecidableEq, Repr

/-- Modelled from the spec: what is recorded for an edge, its two endpoints,
its incident faces and its class. -/
structure EdgeRecord where
  v0 : Int
  v1 : Int
  faces : List Int
  cls : EdgeClass
deriving DecidableEq, Repr

/-- Modelled from the spec: what is recorded for a vertex, its incident edges
and faces, its valence (edge count) and whether it has an incident boundary
edge. -/
structure VertRecord where
  edges : List Int
  faces : List Int
  valence : Nat
  onBoundary : Bool
deriving DecidableEq, Repr

/-- Modelled from the spec: the content behind the handle
`OpenSubdiv_TopologyRefinerDescr`, which the header declares as an incomplete
struct: the frozen adjacency tables. -/
structure OpenSubdiv_TopologyRefinerDescr where
  faces : List FaceRecord
  edges : List EdgeRecord
  verts : List VertRecord
deriving DecidableEq, Repr

/-- Modelled from the spec: the target configuration, which says whether the
refinement scheme supports non-manifold edges. -/
structure Configuration where
  nonManifoldSupported : Bool
deriving DecidableEq, Repr

/-- Modelled from the spec: a fill operation on a buffer sized by the caller
from the count query; exactly that many slots are read back. -/
def readBuffer (count : Int) (fill : Nat → Int) : List Int :=
  (List.range count.toNat).map fill

/-- Modelled from the spec: the entry of a table at an index reported by the
converter; an index outside the table has none. -/
def lookupIdx {α : Type} (table : List α) (i : Int) : Option α :=
  if i < 0 then none else table[i.toNat]?

/-- Modelled from the spec: step 2 of the ingestion for one face, query the
degree, reject a degree below 3, then query the vertex and edge sequences. -/
def ingestFace (c : OpenSubdiv_Converter) (face : Nat) : Except FailureClass FaceRecord :=
  let n := c.get_num_face_verts face
  if n < 3 then .error .degenerateInput
  else .ok { verts := readBuffer n (c.get_face_verts face),
             edges := readBuffer n (c.get_face_edges face) }

/-- Modelled from the spec: step 2 of the ingestion, the faces in index order,
halting at the first rejected face. -/
def ingestFaces (c : OpenSubdiv_Converter) : List Nat → Except FailureClass (List FaceRecord)
  | [] => .ok []
  | face :: rest =>
    match ingestFace c face with
    | .error e => .error e
    | .ok r =>
      match ingestFaces c rest with
      | .error e => .error e
      | .ok rs => .ok (r :: rs)

/-- Modelled from the spec: step 3 of the ingestion for one edge. A count of
incident faces of 0 is invalid (every edge must come from a face) and is taken
as malformed adjacency; more than 2 incident faces fail as unsupported
topology when the configuration has no non-manifold support. -/
def ingestEdge (cfg : Configuration) (c : OpenSubdiv_Converter) (edge : Nat) :
    Except FailureClass EdgeRecord :=
  let n := c.get_num_edge_faces edge
  if n ≤ 0 then .error .malformedAdjacency
  else if 2 < n ∧ cfg.nonManifoldSupported = false then .error .unsupportedTopology
  else .ok { v0 := c.get_edge_verts edge 0,
             v1 := c.get_edge_verts edge 1,
             faces := readBuffer n (c.get_edge_faces edge),
             cls := if n = 1 then .boundary else if n = 2 then .manifoldInterior
                    else .nonManifold }

/-- Modelled from the spec: step 3 of the ingestion, the edges in index order,
halting at the first rejected edge. -/
def ingestEdges (cfg : Configuration) (c : OpenSubdiv_Converter) :
    List Nat → Except FailureClass (List EdgeRecord)
  | [] => .ok []
  | edge :: rest =>
    match ingestEdge cfg c edge with
    | .error e => .error e
    | .ok r =>
      match ingestEdges cfg c rest with
      | .error e => .error e
      | .ok rs => .ok (r :: rs)

/-- Modelled from the spec: step 4 of the ingestion for one vertex, its
incident edges and faces, its valence and its boundary status. -/
def ingestVert (c : OpenSubdiv_Converter) (edges : List EdgeRecord) (vert : Nat) : VertRecord :=
  let es := readBuffer (c.get_num_vert_edges vert) (c.get_vert_edges vert)
  let fs := readBuffer (c.get_num_vert_faces vert) (c.get_vert_faces vert)
  { edges := es, faces := fs, valence := es.length,
    onBoundary := es.any fun e =>
      match lookupIdx edges e with
      | some er => decide (er.cls = .boundary)
      | none => false }

/-- Modelled from the spec: the rows of a table with their indices. -/
def indexed {α : Type} (table : List α) : List (Nat × α) :=
  (List.range table.length).zip table

/-- Modelled from the spec: the cross-check of step 5 from the faces, every
edge referenced by a face reports that face among its incident faces. -/
def facesSymmetric (faces : List FaceRecord) (edges : List EdgeRecord) : Bool :=
  (indexed faces).all fun p =>
    p.2.edges.all fun e =>
      match lookupIdx edges e with
      | some er => er.faces.contains (p.1 : Int)
      | none => false

/-- Modelled from the spec: the round trip of the testable properties, every
face that an edge reports among its incident faces lists that edge. -/
def edgeFacesSymmetric (faces : List FaceRecord) (edges : List EdgeRecord) : Bool :=
  (indexed edges).all fun p =>
    p.2.faces.all fun f =>
      match lookupIdx faces f with
      | some fr => fr.edges.contains (p.1 : Int)
      | none => false

/-- Modelled from the spec: the cross-check of step 5 from the edges, every
vertex referenced by an edge reports that edge among its incident edges. -/
def edgesSymmetric (edges : List EdgeRecord) (verts : List VertRecord) : Bool :=
  (indexed edges).all fun p =>
    [p.2.v0, p.2.v1].all fun v =>
      match lookupIdx verts v with
      | some vr => vr.edges.contains (p.1 : Int)
      | none => false

/-- Modelled from the spec: invariant 4 from the vertices, no dangling
reference: every edge that a vertex reports has that vertex as an endpoint,
and every face that a vertex reports lists that vertex. -/
def vertsConsistent (faces : List FaceRecord) (edges : List EdgeRecord)
    (verts : List VertRecord) : Bool :=
  (indexed verts).all fun p =>
    (p.2.edges.all fun e =>
      match lookupIdx edges e with
      | some er => er.v0 == (p.1 : Int) || er.v1 == (p.1 : Int)
      | none => false) &&
    (p.2.faces.all fun f =>
      match lookupIdx faces f with
      | some fr => fr.verts.contains (p.1 : Int)
      | none => false)

/-- Modelled from the spec: the whole cross-check; any mismatch is a
topology-consistency failure. -/
def crossCheck (faces : List FaceRecord) (edges : List EdgeRecord)
    (verts : List VertRecord) : Bool :=
  facesSymmetric faces edges && edgeFacesSymmetric faces edges &&
    edgesSymmetric edges verts && vertsConsistent faces edges verts

/-- Modelled from the spec: the single ingestion pass (steps 1 to 6 of the
design) with the class of its failure. Step 1 halts on a count that is zero
(or negative, the counts must be non-negative); steps 2 to 4 walk the faces,
edges and vertices; step 5 cross-checks; step 6 freezes the tables into the
descriptor. Allocation is not modelled, see `FailureClass`. -/
def ingest (cfg : Configuration) (c : OpenSubdiv_Converter) :
    Except FailureClass OpenSubdiv_TopologyRefinerDescr :=
  if c.get_num_verts ≤ 0 ∨ c.get_num_edges ≤ 0 ∨ c.get_num_faces ≤ 0 then
    .error .degenerateInput
  else
    match ingestFaces c (List.range c.get_num_faces.toNat) with
    | .error e => .error e
    | .ok faces =>
      match ingestEdges cfg c (List.range c.get_num_edges.toNat) with
      | .error e => .error e
      | .ok edges =>
        let verts := (List.range c.get_num_verts.toNat).map (ingestVert c edges)
        if crossCheck faces edges verts then
          .ok { faces := faces, edges := edges, verts := verts }
        else .error .malformedAdjacency

/-- Modelled from the spec: what the construction entry point reports, the
descriptor handle of a successful ingestion or the failure with its class (the
design has the core classify and return the failure, as a failure result that
is distinguishable). -/
inductive CreateResult where
  | handle (descr : OpenSubdiv_TopologyRefinerDescr)
  | failure (cls : FailureClass)
deriving DecidableEq, Repr

/-- Modelled from the spec: the value of the return type that the header
declares, `OpenSubdiv_TopologyRefinerDescr *`: the descriptor handle, or the
null sentinel on a failure. -/
def CreateResult.descr : CreateResult → Option OpenSubdiv_TopologyRefinerDescr
  | .handle d => some d
  | .failure _ => none

/-- Modelled from the spec: the construction entry point
`openSubdiv_createTopologyRefinerDescr(converter)`, whose body is not in the
header: one ingestion pass, whose outcome it reports. -/
def openSubdiv_createTopologyRefinerDescr (cfg : Configuration) (converter : OpenSubdiv_Converter) :
    CreateResult :=
  match ingest cfg converter with
  | .ok descr => .handle descr
  | .error e => .failure e

/-- Entries of a small table, 0 outside it. -/
def tableAt (table : List Int) (slot : Nat) : Int := table.getD slot 0

/-- Sample converter: one triangle with vertices 0, 1, 2 and edges 0 (0-1),
1 (1-2), 2 (2-0), every edge on face 0. -/
def triangle : OpenSubdiv_Converter where
  get_num_faces := 1
  get_num_edges := 3
  get_num_verts := 3
  get_num_face_verts := fun _ => 3
  get_face_verts := fun _ => tableAt [0, 1, 2]
  get_face_edges := fun _ => tableAt [0, 1, 2]
  get_edge_verts := fun e =>
    if e = 0 then tableAt [0, 1] else if e = 1 then tableAt [1, 2] else tableAt [2, 0]
  get_num_edge_faces := fun _ => 1
  get_edge_faces := fun _ => tableAt [0]
  get_num_vert_edges := fun _ => 2
  get_vert_edges := fun v =>
    if v = 0 then tableAt [0, 2] else if v = 1 then tableAt [0, 1] else tableAt [1, 2]
  get_num_vert_faces := fun _ => 1
  get_vert_faces := fun _ => tableAt [0]

/-- Sample converter: the triangle reporting zero faces. -/
def zeroFaces : OpenSubdiv_Converter := { triangle with get_num_faces := 0 }

/-- Sample converter: the triangle whose edge 0 reports face 7 and so omits
face 0, which lists it. -/
def omittingEdge : OpenSubdiv_Converter :=
  { triangle with get_edge_faces := fun e => if e = 0 then tableAt [7] else tableAt [0] }

/-- Sample converter: the triangle whose edge 0 reports the faces 0 and 1,
where face 1 does not exist and so does not list the edge. -/
def extraFaceEdge : OpenSubdiv_Converter :=
  { triangle with
    get_num_edge_faces := fun e => if e = 0 then 2 else 1
    get_edge_faces := fun e => if e = 0 then tableAt [0, 1] else tableAt [0] }

/-- Sample converter: the triangle reporting a negative number of faces. -/
def negFaces : OpenSubdiv_Converter := { triangle with get_num_faces := -1 }

/-- Sample converter: the triangle whose face reports 2 vertices. -/
def twoVertFace : OpenSubdiv_Converter := { triangle with get_num_face_verts := fun _ => 2 }

/-- Sample configuration without non-manifold support. -/
def manifoldOnly : Configuration := { nonManifoldSupported := false }

end OpenSubdiv

namespace BpyData

/-! ## Lemmas on the dict and the callback -/

theorem getItem_setItem (d : PyDict) (k k' : ID) (v : PySet) :
    PyDict_GetItem (PyDict_SetItem d k v) k' =
      if k' = k then some v else PyDict_GetItem d k' := by
  induction d with
  | nil =>
    by_cases h : k' = k
    · simp [PyDict_SetItem, PyDict_GetItem, h]
    · have h' : ¬ k = k' := fun e => h e.symm
      simp [PyDict_SetItem, PyDict_GetItem, h, h']
  | cons e rest ih =>
    obtain ⟨a, b⟩ := e
    by_cases hk : a = k
    · subst hk
      by_cases h : k' = a
      · subst h
        simp [PyDict_SetItem, PyDict_GetItem]
      · have h' : ¬ a = k' := fun e => h e.symm
        simp [PyDict_SetItem, PyDict_GetItem, h, h']
    · by_cases h : k' = k
      · subst h
        simp [PyDict_SetItem, PyDict_GetItem, hk, ih]
      · by_cases ha : a = k'
        · subst ha
          simp [PyDict_SetItem, PyDict_GetItem, hk]
        · simp [PyDict_SetItem, PyDict_GetItem, hk, ha, ih, h]

theorem callback_spec (data : IDUserMapData) (id_p : Option ID)
    (h : data.py_id_curr = none ∨ data.py_id_curr = some data.id_curr) :
    (foreach_libblock_id_user_map_callback data id_p).1 = true ∧
    (foreach_libblock_id_user_map_callback data id_p).2.id_curr = data.id_curr ∧
    (foreach_libblock_id_user_map_callback data id_p).2.is_restricted = data.is_restricted ∧
    ((foreach_libblock_id_user_map_callback data id_p).2.py_id_curr = none ∨
      (foreach_libblock_id_user_map_callback data id_p).2.py_id_curr = some data.id_curr) ∧
    ∀ k, PyDict_GetItem (foreach_libblock_id_user_map_callback data id_p).2.user_map k =
      linkLookup data.is_restricted data.id_curr id_p k (PyDict_GetItem data.user_map k) := by
  have hpy : ensure_py_id_curr data = data.id_curr := by
    rcases h with h | h <;> simp [ensure_py_id_curr, h, pyrna_id_CreatePyObject]
  cases id_p with
  | none => simp [foreach_libblock_id_user_map_callback, linkLookup, h]
  | some id =>
    cases hR : data.is_restricted with
    | true =>
      cases hg : PyDict_GetItem data.user_map id with
      | none =>
        refine ⟨?_, ?_, ?_, ?_, ?_⟩ <;>
          simp [foreach_libblock_id_user_map_callback, hR, hg, pyrna_id_CreatePyObject, h]
        intro k
        by_cases hk : id = k
        · subst hk; simp [linkLookup, hg]
        · simp [linkLookup, hk]
      | some set =>
        refine ⟨?_, ?_, ?_, ?_, ?_⟩ <;>
          simp [foreach_libblock_id_user_map_callback, hR, hg, pyrna_id_CreatePyObject, hpy]
        intro k
        rw [getItem_setItem]
        by_cases hk : k = id
        · subst hk; simp [linkLookup, hg]
        · have hk' : ¬ id = k := fun e => hk e.symm
          simp [linkLookup, hk, hk']
    | false =>
      refine ⟨?_, ?_, ?_, ?_, ?_⟩ <;>
        simp [foreach_libblock_id_user_map_callback, hR, pyrna_id_CreatePyObject, hpy]
      intro k
      rw [getItem_setItem]
      by_cases hk : k = id
      · subst hk
        cases hg : PyDict_GetItem data.user_map k <;> simp [linkLookup, hg, PySet_New]
      · have hk' : ¬ id = k := fun e => hk e.symm
        cases hg : PyDict_GetItem data.user_map id <;>
          simp [linkLookup, hk, hk', hg, getItem_setItem]

theorem foreach_spec (links : List (Option ID)) (data : IDUserMapData)
    (h : data.py_id_curr = none ∨ data.py_id_curr = some data.id_curr) (k : ID) :
    PyDict_GetItem
        (BKE_library_foreach_ID_link links foreach_libblock_id_user_map_callback data).user_map k =
      links.foldl (fun o r => linkLookup data.is_restricted data.id_curr r k o)
        (PyDict_GetItem data.user_map k) := by
  induction links generalizing data with
  | nil => simp [BKE_library_foreach_ID_link]
  | cons r rest ih =>
    obtain ⟨h1, h2, h3, h4, h5⟩ := callback_spec data r h
    simp only [BKE_library_foreach_ID_link, h1, if_true, List.foldl_cons]
    rw [ih _ (by rw [h2]; exact h4), h2, h3, h5]

theorem mem_PySet_Add (s : PySet) (u x : ID) : u ∈ PySet_Add s x ↔ u ∈ s ∨ u = x := by
  unfold PySet_Add
  by_cases h : x ∈ s
  · simp only [h, if_true]
    constructor
    · exact fun hu => Or.inl hu
    · rintro (hu | hu)
      · exact hu
      · subst hu; exact h
  · simp [h]

theorem linkLookup_isSome (R : Bool) (cur : ID) (r : Option ID) (k : ID) (old : Option PySet) :
    (linkLookup R cur r k old).isSome = true ↔
      old.isSome = true ∨ (R = false ∧ r = some k) := by
  unfold linkLookup
  by_cases hr : r = some k <;> cases R <;> cases old <;> simp [hr]

theorem linkLookup_mem (R : Bool) (cur : ID) (r : Option ID) (k : ID) (old : Option PySet)
    (u : ID) :
    memO u (linkLookup R cur r k old) ↔
      memO u old ∨ (r = some k ∧ u = cur ∧ (R = false ∨ old.isSome = true)) := by
  unfold linkLookup memO
  by_cases hr : r = some k <;> cases R <;> cases old <;> simp [hr, mem_PySet_Add]

theorem links_fold (R : Bool) (cur k : ID) (links : List (Option ID)) (old : Option PySet) :
    ((links.foldl (fun o r => linkLookup R cur r k o) old).isSome = true ↔
      old.isSome = true ∨ (R = false ∧ some k ∈ links)) ∧
    ∀ u, memO u (links.foldl (fun o r => linkLookup R cur r k o) old) ↔
      memO u old ∨ (some k ∈ links ∧ u = cur ∧ (R = false ∨ old.isSome = true)) := by
  induction links generalizing old with
  | nil => simp
  | cons r rest ih =>
    obtain ⟨ih1, ih2⟩ := ih (linkLookup R cur r k old)
    have e : ∀ x : Option ID, some k = x ↔ x = some k := fun x => eq_comm
    refine ⟨?_, fun u => ?_⟩
    · rw [List.foldl_cons, ih1, linkLookup_isSome, List.mem_cons, e]
      tauto
    · rw [List.foldl_cons, ih2, linkLookup_mem, linkLookup_isSome, List.mem_cons, e]
      tauto

theorem prop_aux (M L U X E S : Prop) :
    ((M ∨ L ∧ U ∧ (X ∨ S)) ∨ E ∧ (X ∨ S ∨ X ∧ L)) ↔ (M ∨ (U ∧ L ∨ E) ∧ (X ∨ S)) := by
  tauto

theorem blocks_fold (R : Bool) (k : ID) (B : List IDBlock) (old : Option PySet) :
    ((B.foldl (blockLookup R k) old).isSome = true ↔
      old.isSome = true ∨ (R = false ∧ ∃ b ∈ B, some k ∈ b.links)) ∧
    ∀ u, memO u (B.foldl (blockLookup R k) old) ↔
      memO u old ∨ ((∃ b ∈ B, b.id = u ∧ some k ∈ b.links) ∧
        (R = false ∨ old.isSome = true)) := by
  induction B generalizing old with
  | nil => simp
  | cons b rest ih =>
    obtain ⟨ih1, ih2⟩ := ih (blockLookup R k old b)
    obtain ⟨l1, l2⟩ := links_fold R b.id k b.links old
    refine ⟨?_, fun u => ?_⟩
    · rw [List.foldl_cons, ih1]
      unfold blockLookup
      rw [l1]
      simp only [List.mem_cons, exists_eq_or_imp]
      tauto
    · rw [List.foldl_cons, ih2]
      unfold blockLookup
      rw [l1, l2 u]
      simp only [List.mem_cons, exists_eq_or_imp]
      have e : b.id = u ↔ u = b.id := eq_comm
      rw [e]
      exact prop_aux _ _ _ _ _ _

theorem visit_spec (R : Bool) (d : PyDict) (b : IDBlock) (k : ID) :
    PyDict_GetItem (user_map_visit R d b) k = blockLookup R k (PyDict_GetItem d k) b := by
  unfold user_map_visit blockLookup
  rw [foreach_spec _ _ (Or.inl rfl)]

theorem list_spec (R : Bool) (lb : List IDBlock) (d : PyDict) (k : ID) :
    PyDict_GetItem (lb.foldl (user_map_visit R) d) k =
      lb.foldl (blockLookup R k) (PyDict_GetItem d k) := by
  induction lb generalizing d with
  | nil => rfl
  | cons b rest ih => rw [List.foldl_cons, ih, visit_spec, List.foldl_cons]

theorem mem_flattenBlocks (lbs : List (List IDBlock)) (b : IDBlock) :
    b ∈ flattenBlocks lbs ↔ ∃ lb ∈ lbs, b ∈ lb := by
  induction lbs with
  | nil => simp [flattenBlocks]
  | cons lb rest ih =>
    have : flattenBlocks (lb :: rest) = lb ++ flattenBlocks rest := rfl
    rw [this, List.mem_append, ih]
    simp

theorem lists_spec (R : Bool) (lbs : List (List IDBlock)) (d : PyDict) (k : ID) :
    PyDict_GetItem (lbs.foldl (fun d lb => lb.foldl (user_map_visit R) d) d) k =
      (flattenBlocks lbs).foldl (blockLookup R k) (PyDict_GetItem d k) := by
  induction lbs generalizing d with
  | nil => rfl
  | cons lb rest ih =>
    have : flattenBlocks (lb :: rest) = lb ++ flattenBlocks rest := rfl
    rw [List.foldl_cons, ih, list_spec, this, List.foldl_append]

theorem mem_datablocks (bmain : Main) (b : IDBlock) :
    b ∈ flattenBlocks (set_listbasepointers bmain).reverse ↔ b ∈ datablocks bmain := by
  have : datablocks bmain = flattenBlocks (set_listbasepointers bmain) := rfl
  rw [this, mem_flattenBlocks, mem_flattenBlocks]
  simp

theorem add_sub_refs_get (elems : List ID) (d : PyDict) (k : ID) :
    PyDict_GetItem (add_sub_refs d elems) k =
      if k ∈ elems then some [] else PyDict_GetItem d k := by
  induction elems generalizing d with
  | nil => simp [add_sub_refs]
  | cons x rest ih =>
    have : add_sub_refs d (x :: rest) = add_sub_refs (PyDict_SetItem d x PySet_New) rest := rfl
    rw [this, ih, getItem_setItem]
    by_cases h1 : k ∈ rest
    · simp [h1]
    · by_cases h2 : k = x <;> simp [h1, h2, PySet_New]

theorem add_refs_get (args : List PyArg) (st : PyDict × Option PyExc) (k : ID) :
    PyDict_GetItem (args.foldl add_ref st).1 k =
      if k ∈ supplied args then some [] else PyDict_GetItem st.1 k := by
  induction args generalizing st with
  | nil => simp [supplied]
  | cons a rest ih =>
    rw [List.foldl_cons, ih]
    cases a with
    | datablock id =>
      simp only [add_ref, supplied, getItem_setItem, List.mem_cons]
      by_cases h1 : k ∈ supplied rest
      · simp [h1]
      · by_cases h2 : k = id <;> simp [h1, h2, PySet_New]
    | iterable elems =>
      simp only [add_ref, supplied, add_sub_refs_get, List.mem_append]
      by_cases h1 : k ∈ supplied rest
      · simp [h1]
      · by_cases h2 : k ∈ elems <;> simp [h1, h2]

/-- The pending exception after the argument loop. -/
theorem add_refs_err (args : List PyArg) (st : PyDict × Option PyExc) :
    (args.foldl add_ref st).2 =
      if args.any PyArg.isDatablock = true then some PyExc.TypeError else st.2 := by
  induction args generalizing st with
  | nil => simp
  | cons a rest ih =>
    rw [List.foldl_cons, ih]
    cases a with
    | datablock id =>
      by_cases h : rest.any PyArg.isDatablock = true
      · simp [h, PyArg.isDatablock]
      · simp [h, PyArg.isDatablock, add_ref]
    | iterable elems =>
      by_cases h : rest.any PyArg.isDatablock = true
      · simp [h, PyArg.isDatablock]
      · simp [h, PyArg.isDatablock, add_ref]

theorem mem_keys_iff (d : PyDict) (k : ID) :
    k ∈ PyDict_Keys d ↔ (PyDict_GetItem d k).isSome = true := by
  induction d with
  | nil => simp [PyDict_Keys, PyDict_GetItem]
  | cons e rest ih =>
    obtain ⟨a, b⟩ := e
    have : PyDict_Keys ((a, b) :: rest) = a :: PyDict_Keys rest := rfl
    rw [this, List.mem_cons, ih]
    by_cases h : a = k
    · subst h; simp [PyDict_GetItem]
    · have h' : ¬ k = a := fun e => h e.symm
      simp [PyDict_GetItem, h, h']

/-- The observable content of the dict returned by `bpy_user_map`, key by key. -/
theorem bpy_user_map_get (bmain : Main) (args : List PyArg) (k : ID) :
    PyDict_GetItem (bpy_user_map bmain args).value k =
      (flattenBlocks (set_listbasepointers bmain).reverse).foldl
        (blockLookup (decide (args ≠ [])) k)
        (if args ≠ [] ∧ k ∈ supplied args then some [] else none) := by
  cases args with
  | nil =>
    have h : (bpy_user_map bmain []).value =
        (set_listbasepointers bmain).reverse.foldl
          (fun d lb => lb.foldl (user_map_visit false) d) PyDict_New := rfl
    rw [h, lists_spec]
    simp [PyDict_New, PyDict_GetItem]
  | cons a rest =>
    have h : (bpy_user_map bmain (a :: rest)).value =
        (set_listbasepointers bmain).reverse.foldl
          (fun d lb => lb.foldl (user_map_visit true) d)
          ((a :: rest).foldl add_ref (PyDict_New, none)).1 := rfl
    rw [h, lists_spec, add_refs_get]
    simp [PyDict_New, PyDict_GetItem]

/-- The pending exception at the return of `bpy_user_map`: `TypeError` exactly
when some argument is a bare datablock. -/
theorem bpy_user_map_err (bmain : Main) (args : List PyArg) :
    (bpy_user_map bmain args).err =
      if args.any PyArg.isDatablock = true then some PyExc.TypeError else none := by
  cases args with
  | nil => rfl
  | cons a rest =>
    have h : (bpy_user_map bmain (a :: rest)).err =
        ((a :: rest).foldl add_ref (PyDict_New, none)).2 := rfl
    rw [h, add_refs_err]

theorem init_not_mem (args : List PyArg) (k u : ID) :
    ¬ memO u (if args ≠ [] ∧ k ∈ supplied args then some [] else none) := by
  unfold memO
  by_cases h : args ≠ [] ∧ k ∈ supplied args
  · rw [if_pos h]; rintro ⟨s, hs, hu⟩
    cases hs; simp at hu
  · rw [if_neg h]; rintro ⟨s, hs, _⟩
    cases hs

theorem init_isSome (args : List PyArg) (k : ID) :
    (if args ≠ [] ∧ k ∈ supplied args then some ([] : PySet) else none).isSome = true ↔
      args ≠ [] ∧ k ∈ supplied args := by
  by_cases h : args ≠ [] ∧ k ∈ supplied args
  · simp [h]
  · rw [if_neg h]; simp [h]

/-- Keys of the result: in restricted mode the supplied datablocks, otherwise
the datablocks that some datablock of the database references. -/
theorem bpy_user_map_key_iff (bmain : Main) (args : List PyArg) (k : ID) :
    k ∈ PyDict_Keys (bpy_user_map bmain args).value ↔
      (args ≠ [] ∧ k ∈ supplied args) ∨
        (args = [] ∧ ∃ b ∈ datablocks bmain, some k ∈ b.links) := by
  rw [mem_keys_iff, bpy_user_map_get,
    (blocks_fold (decide (args ≠ [])) k _ _).1, init_isSome]
  simp only [mem_datablocks, decide_eq_false_iff_not, ne_eq, not_not]

/-- Membership in the set stored under a key of the result, in both modes. -/
theorem bpy_user_map_mem_iff (bmain : Main) (args : List PyArg) (k : ID) (s : PySet)
    (hk : PyDict_GetItem (bpy_user_map bmain args).value k = some s) (u : ID) :
    u ∈ s ↔ ∃ b ∈ datablocks bmain, b.id = u ∧ some k ∈ b.links := by
  rw [bpy_user_map_get] at hk
  obtain ⟨h1, h2⟩ := blocks_fold (decide (args ≠ [])) k
    (flattenBlocks (set_listbasepointers bmain).reverse)
    (if args ≠ [] ∧ k ∈ supplied args then some [] else none)
  have hm := h2 u
  rw [hk] at hm h1
  have hs : memO u (some s) ↔ u ∈ s := by
    unfold memO
    constructor
    · rintro ⟨t, ht, hu⟩
      cases ht; exact hu
    · exact fun hu => ⟨s, rfl, hu⟩
  rw [hs] at hm
  rw [hm]
  have h1' := h1.1 rfl
  simp only [mem_datablocks] at h1' ⊢
  constructor
  · rintro (h | h)
    · exact absurd h (init_not_mem args k u)
    · exact h.1
  · intro h
    refine Or.inr ⟨h, ?_⟩
    rcases h1' with h3 | h3
    · exact Or.inr h3
    · exact Or.inl h3.1

/-- C1: in both modes, for every key `k` of the dict returned by `bpy_user_map`
and every ID `u`, `u` is in the set stored under `k` exactly when `u` is a
datablock of the database one of whose non-NULL outgoing references is `k`
(NULL references contribute nothing, a self reference lists the datablock as
its own user). -/
theorem bpy_user_map_users (bmain : Main) (args : List PyArg) (k : ID) (s : PySet)
    (hk : PyDict_GetItem (bpy_user_map bmain args).value k = some s) (u : ID) :
    u ∈ s ↔ ∃ b ∈ datablocks bmain, b.id = u ∧ some k ∈ b.links :=
  bpy_user_map_mem_iff bmain args k s hk u

/-- C1 witness: datablock 1 references 2, NULL and itself; datablock 3
references 2 twice. Under key 1 the set is `[1]`, and 1 is its own user. -/
theorem bpy_user_map_users_witness :
    PyDict_GetItem (bpy_user_map
        ⟨[[⟨1, [some 2, none, some 1]⟩, ⟨2, []⟩], [⟨3, [some 2, some 2]⟩]]⟩ []).value 1 =
      some [1] ∧
    ((1 : ID) ∈ ([1] : PySet) ↔
      ∃ b ∈ datablocks ⟨[[⟨1, [some 2, none, some 1]⟩, ⟨2, []⟩], [⟨3, [some 2, some 2]⟩]]⟩,
        b.id = 1 ∧ some 1 ∈ b.links) :=
  ⟨by decide, bpy_user_map_users _ [] 1 [1] (by decide) 1⟩

/-- C2 (the code departs from its docstring): called with no arguments on the
database holding datablock 1 (which references 2) and datablock 2, the call
returns, without any exception, the dict with the single key 2; datablock 1,
which nothing references, is a datablock of the database and is not a key. -/
theorem bpy_user_map_unused_not_key :
    (bpy_user_map ⟨[[⟨1, [some 2]⟩, ⟨2, []⟩]]⟩ []).value = [(2, [1])] ∧
    call_data_user_map ⟨[[⟨1, [some 2]⟩, ⟨2, []⟩]]⟩ [] = .ok [(2, [1])] ∧
    (⟨1, [some 2]⟩ : IDBlock) ∈ datablocks ⟨[[⟨1, [some 2]⟩, ⟨2, []⟩]]⟩ ∧
    (1 : ID) ∉ PyDict_Keys (bpy_user_map ⟨[[⟨1, [some 2]⟩, ⟨2, []⟩]]⟩ []).value ∧
    PyDict_GetItem (bpy_user_map ⟨[[⟨1, [some 2]⟩, ⟨2, []⟩]]⟩ []).value 1 = none :=
  ⟨by decide, rfl, by decide, by decide, by decide⟩

/-- The dict built at the C level for a non-empty argument tuple has exactly
the supplied datablocks as keys (iterables flattened one level), and a supplied
datablock that no datablock uses is mapped to the empty set. Whether the call
hands this dict to the script is `call_data_user_map`. -/
theorem user_map_value_keys (bmain : Main) (args : List PyArg) (hargs : args ≠ []) :
    (∀ k, k ∈ PyDict_Keys (bpy_user_map bmain args).value ↔ k ∈ supplied args) ∧
    (∀ k, k ∈ supplied args → (∀ b ∈ datablocks bmain, some k ∉ b.links) →
      PyDict_GetItem (bpy_user_map bmain args).value k = some []) := by
  have hkeys : ∀ k, k ∈ PyDict_Keys (bpy_user_map bmain args).value ↔ k ∈ supplied args := by
    intro k
    rw [bpy_user_map_key_iff]
    constructor
    · rintro (h | h)
      · exact h.2
      · exact absurd h.1 hargs
    · exact fun h => Or.inl ⟨hargs, h⟩
  refine ⟨hkeys, fun k hk hno => ?_⟩
  have hsome := (mem_keys_iff _ k).1 ((hkeys k).2 hk)
  cases hg : PyDict_GetItem (bpy_user_map bmain args).value k with
  | none => rw [hg] at hsome; cases hsome
  | some s =>
    have hs : s = [] := by
      apply List.eq_nil_iff_forall_not_mem.2
      intro u hu
      obtain ⟨b, hb, _, hl⟩ := (bpy_user_map_mem_iff bmain args k s hg u).1 hu
      exact hno b hb hl
    rw [hs]

/-- A call with a bare datablock among its arguments raises `SystemError`,
whatever the database. -/
theorem call_data_user_map_raises (bmain : Main) (args : List PyArg)
    (h : ∃ id, PyArg.datablock id ∈ args) :
    call_data_user_map bmain args = .error .SystemError := by
  have hany : args.any PyArg.isDatablock = true := by
    obtain ⟨id, hid⟩ := h
    exact List.any_eq_true.2 ⟨_, hid, rfl⟩
  unfold call_data_user_map
  rw [bpy_user_map_err, if_pos hany]

/-- A call whose arguments are all iterables returns the dict whose keys are
exactly the supplied datablocks. -/
theorem call_data_user_map_iterables (bmain : Main) (args : List PyArg) (hargs : args ≠ [])
    (h : ∀ a ∈ args, ∃ elems, a = PyArg.iterable elems) :
    call_data_user_map bmain args = .ok (bpy_user_map bmain args).value ∧
    ∀ k, k ∈ PyDict_Keys (bpy_user_map bmain args).value ↔ k ∈ supplied args := by
  refine ⟨?_, (user_map_value_keys bmain args hargs).1⟩
  have hno : ¬ args.any PyArg.isDatablock = true := by
    intro hany
    obtain ⟨a, ha, hd⟩ := List.any_eq_true.1 hany
    obtain ⟨elems, he⟩ := h a ha
    rw [he] at hd
    cases hd
  unfold call_data_user_map
  rw [bpy_user_map_err, if_neg hno]

/-- C3 (the code misses the bare-datablock case): called with the single
datablock 2 as argument, `bpy_user_map` does build the dict with key 2, but it
returns it with the `TypeError` of the failed `PyObject_GetIter` still pending,
so the call raises `SystemError` and hands no dict to the script; the same
datablock supplied inside an iterable is returned as the claim says. -/
theorem bpy_user_map_datablock_arg_raises :
    (bpy_user_map ⟨[[⟨1, [some 2, none, some 1]⟩, ⟨2, []⟩], [⟨3, [some 2, some 2]⟩]]⟩
      [PyArg.datablock 2]).value = [(2, [3, 1])] ∧
    (bpy_user_map ⟨[[⟨1, [some 2, none, some 1]⟩, ⟨2, []⟩], [⟨3, [some 2, some 2]⟩]]⟩
      [PyArg.datablock 2]).err = some PyExc.TypeError ∧
    call_data_user_map ⟨[[⟨1, [some 2, none, some 1]⟩, ⟨2, []⟩], [⟨3, [some 2, some 2]⟩]]⟩
      [PyArg.datablock 2] = .error .SystemError ∧
    call_data_user_map ⟨[[⟨1, [some 2, none, some 1]⟩, ⟨2, []⟩], [⟨3, [some 2, some 2]⟩]]⟩
      [PyArg.iterable [2]] = .ok [(2, [3, 1])] :=
  ⟨by decide, by decide, rfl, rfl⟩

/-- Two walks, evaluated: no argument, and the iterables `[2]` and `[7, 3]`. -/
theorem bpy_user_map_examples :
    (bpy_user_map ⟨[[⟨1, [some 2, none, some 1]⟩, ⟨2, []⟩], [⟨3, [some 2, some 2]⟩]]⟩ []).value =
      [(2, [3, 1]), (1, [1])] ∧
    call_data_user_map ⟨[[⟨1, [some 2, none, some 1]⟩, ⟨2, []⟩], [⟨3, [some 2, some 2]⟩]]⟩
      [PyArg.iterable [2], PyArg.iterable [7, 3]] = .ok [(2, [3, 1]), (7, []), (3, [])] :=
  ⟨by decide, rfl⟩

end BpyData

namespace CacheLibrary

/-! ## Properties of the cache library operators -/

theorem or_and_self (v m : Nat) : (v ||| m) &&& m = m := by
  apply Nat.eq_of_testBit_eq
  intro i
  rw [Nat.testBit_and, Nat.testBit_or]
  cases v.testBit i <;> cases m.testBit i <;> rfl

theorem or_eq_of_and_eq (v m : Nat) (h : v &&& m = m) : v ||| m = v := by
  apply Nat.eq_of_testBit_eq
  intro i
  have hi : (v &&& m).testBit i = m.testBit i := by rw [h]
  rw [Nat.testBit_and] at hi
  rw [Nat.testBit_or]
  cases hv : v.testBit i <;> cases hm : m.testBit i <;> simp [hv, hm] at hi ⊢

theorem exec_flag_eq (X : Externals) (C : bContext) (op : wmOperator) (W : World) :
    exec_flag X C op W = exec_prior_flag X C op W ||| X.CACHE_ITEM_ENABLED := by
  simp [exec_flag, exec_prior_flag, exec_item, cache_item_enable_exec, World.call]

theorem exec_calls_eq (X : Externals) (C : bContext) (op : wmOperator) (W : World) :
    (cache_item_enable_exec X C op W).2.calls =
      W.calls ++
        [Call.BKE_cache_library_add_item (CTX_data_pointer_get_type C "cachelib")
            (CTX_data_pointer_get_type C "cache_object") (RNA_enum_get op "type")
            (RNA_int_get op "index"),
          Call.WM_event_add_notifier X.NC_OBJECT (CTX_data_pointer_get_type C "cachelib")] := by
  simp [cache_item_enable_exec, World.call]

/-- C4 (as stated, refuted): with `CACHE_ITEM_ENABLED` bit 0 and an item whose
flag is 1 (enabled), the flag after `cache_item_enable_exec` is still 1: the
bit is not flipped and the enabled entry does not become disabled. -/
theorem cache_item_enable_exec_not_toggle :
    exec_prior_flag sampleExternals sampleContext sampleOperator (sampleWorld 1) = 1 ∧
    exec_flag sampleExternals sampleContext sampleOperator (sampleWorld 1) = 1 ∧
    exec_flag sampleExternals sampleContext sampleOperator (sampleWorld 1) ≠
      exec_prior_flag sampleExternals sampleContext sampleOperator (sampleWorld 1) ^^^
        sampleExternals.CACHE_ITEM_ENABLED := by
  decide

/-- C4 (amended): `cache_item_enable_exec` enables the cache entry returned by
`BKE_cache_library_add_item`: whatever the prior flag, `CACHE_ITEM_ENABLED` is
set afterwards, and an entry that was already enabled keeps its flag. -/
theorem cache_item_enable_exec_enables (X : Externals) (C : bContext) (op : wmOperator)
    (W : World) :
    exec_flag X C op W &&& X.CACHE_ITEM_ENABLED = X.CACHE_ITEM_ENABLED ∧
    (exec_prior_flag X C op W &&& X.CACHE_ITEM_ENABLED = X.CACHE_ITEM_ENABLED →
      exec_flag X C op W = exec_prior_flag X C op W) := by
  rw [exec_flag_eq]
  exact ⟨or_and_self _ _, or_eq_of_and_eq _ _⟩

/-- C4 witness: a disabled entry (flag 2) ends enabled (flag 3), an enabled
entry (flag 3) keeps its flag. -/
theorem cache_item_enable_exec_enables_witness :
    exec_flag sampleExternals sampleContext sampleOperator (sampleWorld 2) = 3 ∧
    exec_prior_flag sampleExternals sampleContext sampleOperator (sampleWorld 3) &&&
      sampleExternals.CACHE_ITEM_ENABLED = sampleExternals.CACHE_ITEM_ENABLED ∧
    exec_flag sampleExternals sampleContext sampleOperator (sampleWorld 3) =
      exec_prior_flag sampleExternals sampleContext sampleOperator (sampleWorld 3) :=
  ⟨by decide, by decide,
    (cache_item_enable_exec_enables sampleExternals sampleContext sampleOperator
      (sampleWorld 3)).2 (by decide)⟩

/-- C5: every execution of `new_cachelib_exec` returns `OPERATOR_FINISHED` and
makes exactly one call that creates a cache library: `BKE_cache_library_copy`
of the context's `cachelib` when the context has one, and otherwise
`BKE_cache_library_add` on the context's `Main` with the name `CacheLibrary`
(handed through `DATA_`); this holds with and without an active template-ID
property. -/
theorem new_cachelib_exec_creates (X : Externals) (C : bContext) (op : wmOperator)
    (W : World) :
    (new_cachelib_exec X C op W).1 = X.OPERATOR_FINISHED ∧
    ∃ trace, (new_cachelib_exec X C op W).2.calls = W.calls ++ trace ∧
      (trace.filter Call.isCreation).length = 1 ∧
      trace.filter Call.isCreation =
        [match CTX_data_pointer_get_type C "cachelib" with
         | some cl => Call.BKE_cache_library_copy cl
         | none => Call.BKE_cache_library_add (CTX_data_main C) (X.DATA_ "CacheLibrary")] := by
  refine ⟨rfl, ?_⟩
  cases hc : CTX_data_pointer_get_type C "cachelib" with
  | none =>
    cases hp : C.templateID_prop with
    | none =>
      exact ⟨[Call.BKE_cache_library_add (CTX_data_main C) (X.DATA_ "CacheLibrary"),
          Call.WM_event_add_notifier X.NC_OBJECT
            (some (X.BKE_cache_library_add (CTX_data_main C) (X.DATA_ "CacheLibrary")))],
        by simp [new_cachelib_exec, hc, hp, World.call],
        by simp [Call.isCreation], by simp [Call.isCreation]⟩
    | some prop =>
      exact ⟨[Call.BKE_cache_library_add (CTX_data_main C) (X.DATA_ "CacheLibrary"),
          Call.RNA_property_pointer_set C.templateID_ptr prop
            (X.BKE_cache_library_add (CTX_data_main C) (X.DATA_ "CacheLibrary")),
          Call.RNA_property_update C.templateID_ptr prop,
          Call.WM_event_add_notifier X.NC_OBJECT
            (some (X.BKE_cache_library_add (CTX_data_main C) (X.DATA_ "CacheLibrary")))],
        by simp [new_cachelib_exec, hc, hp, World.call],
        by simp [Call.isCreation], by simp [Call.isCreation]⟩
  | some cl =>
    cases hp : C.templateID_prop with
    | none =>
      exact ⟨[Call.BKE_cache_library_copy cl,
          Call.WM_event_add_notifier X.NC_OBJECT (some (X.BKE_cache_library_copy cl))],
        by simp [new_cachelib_exec, hc, hp, World.call],
        by simp [Call.isCreation], by simp [Call.isCreation]⟩
    | some prop =>
      exact ⟨[Call.BKE_cache_library_copy cl,
          Call.RNA_property_pointer_set C.templateID_ptr prop (X.BKE_cache_library_copy cl),
          Call.RNA_property_update C.templateID_ptr prop,
          Call.WM_event_add_notifier X.NC_OBJECT (some (X.BKE_cache_library_copy cl))],
        by simp [new_cachelib_exec, hc, hp, World.call],
        by simp [Call.isCreation], by simp [Call.isCreation]⟩

/-- C8: `cache_item_enable_exec` changes only the enabled bit of the flag of
the item returned by `BKE_cache_library_add_item`: the flag afterwards is the
prior flag or-ed with `CACHE_ITEM_ENABLED`, so that bit is set and every other
bit is as before; the other members of the item and every other item are as
`BKE_cache_library_add_item` left them; and a second execution that is handed
the same item with the flag the first one left does not change the flag. -/
theorem cache_item_enable_exec_flag (X : Externals) (C : bContext) (op : wmOperator)
    (W : World) :
    exec_flag X C op W = exec_prior_flag X C op W ||| X.CACHE_ITEM_ENABLED ∧
    exec_flag X C op W &&& X.CACHE_ITEM_ENABLED = X.CACHE_ITEM_ENABLED ∧
    (∀ i, X.CACHE_ITEM_ENABLED.testBit i = false →
      (exec_flag X C op W).testBit i = (exec_prior_flag X C op W).testBit i) ∧
    (∀ p, ((cache_item_enable_exec X C op W).2.items p).ob = (exec_memory X C op W p).ob ∧
      ((cache_item_enable_exec X C op W).2.items p).type = (exec_memory X C op W p).type ∧
      ((cache_item_enable_exec X C op W).2.items p).index = (exec_memory X C op W p).index ∧
      (p ≠ exec_item X C op W →
        (cache_item_enable_exec X C op W).2.items p = exec_memory X C op W p)) ∧
    (∀ C2 op2,
      exec_item X C2 op2 (cache_item_enable_exec X C op W).2 = exec_item X C op W →
      exec_prior_flag X C2 op2 (cache_item_enable_exec X C op W).2 = exec_flag X C op W →
      exec_flag X C2 op2 (cache_item_enable_exec X C op W).2 = exec_flag X C op W) := by
  refine ⟨exec_flag_eq X C op W, ?_, ?_, ?_, ?_⟩
  · rw [exec_flag_eq]; exact or_and_self _ _
  · intro i hi
    rw [exec_flag_eq, Nat.testBit_or, hi, Bool.or_false]
  · intro p
    by_cases hp : p = exec_item X C op W
    · subst hp
      simp [cache_item_enable_exec, World.call, exec_memory, exec_item]
    · have hp' : ¬ p = (X.BKE_cache_library_add_item W.items
          (CTX_data_pointer_get_type C "cachelib")
          (CTX_data_pointer_get_type C "cache_object") (RNA_enum_get op "type")
          (RNA_int_get op "index")).2 := hp
      simp [cache_item_enable_exec, World.call, exec_memory, hp']
  · intro C2 op2 _ h2
    rw [exec_flag_eq X C2 op2, h2, exec_flag_eq X C op W, Nat.lor_assoc, Nat.or_self]

/-- C8 witness: an item with flag 6 ends with flag 7, and a second execution
on the resulting memory finds the same item and leaves 7. -/
theorem cache_item_enable_exec_flag_witness :
    exec_flag sampleExternals sampleContext sampleOperator (sampleWorld 6) = 7 ∧
    exec_flag sampleExternals sampleContext sampleOperator
        (cache_item_enable_exec sampleExternals sampleContext sampleOperator
          (sampleWorld 6)).2 =
      exec_flag sampleExternals sampleContext sampleOperator (sampleWorld 6) :=
  ⟨by decide,
    (cache_item_enable_exec_flag sampleExternals sampleContext sampleOperator
      (sampleWorld 6)).2.2.2.2 sampleContext sampleOperator (by decide) (by decide)⟩

/-- C9: `cache_item_enable_poll` returns true exactly when the `cachelib` and
the `cache_object` pointers of the context are both non-NULL; and on a context
where it returned true, the call of `BKE_cache_library_add_item` made by
`cache_item_enable_exec` has a non-NULL cache library and a non-NULL object. -/
theorem cache_item_enable_poll_guards (X : Externals) (C : bContext) (op : wmOperator)
    (W : World) :
    (cache_item_enable_poll C = true ↔
      CTX_data_pointer_get_type C "cachelib" ≠ none ∧
        CTX_data_pointer_get_type C "cache_object" ≠ none) ∧
    (cache_item_enable_poll C = true →
      ∃ cl ob, (cache_item_enable_exec X C op W).2.calls =
        W.calls ++
          [Call.BKE_cache_library_add_item (some cl) (some ob) (RNA_enum_get op "type")
              (RNA_int_get op "index"),
            Call.WM_event_add_notifier X.NC_OBJECT (some cl)]) := by
  have hpoll : cache_item_enable_poll C = true ↔
      CTX_data_pointer_get_type C "cachelib" ≠ none ∧
        CTX_data_pointer_get_type C "cache_object" ≠ none := by
    unfold cache_item_enable_poll
    cases CTX_data_pointer_get_type C "cachelib" <;>
      cases CTX_data_pointer_get_type C "cache_object" <;> simp
  refine ⟨hpoll, fun h => ?_⟩
  obtain ⟨h1, h2⟩ := hpoll.1 h
  rw [exec_calls_eq]
  cases hc : CTX_data_pointer_get_type C "cachelib" with
  | none => exact absurd hc h1
  | some cl =>
    cases ho : CTX_data_pointer_get_type C "cache_object" with
    | none => exact absurd ho h2
    | some ob => exact ⟨cl, ob, rfl⟩

/-- C9 witness: the sample context has both pointers, the poll accepts it and
the call receives the addresses 10 and 20. -/
theorem cache_item_enable_poll_guards_witness :
    cache_item_enable_poll sampleContext = true ∧
    ∃ cl ob, (cache_item_enable_exec sampleExternals sampleContext sampleOperator
        (sampleWorld 0)).2.calls =
      (sampleWorld 0).calls ++
        [Call.BKE_cache_library_add_item (some cl) (some ob)
            (RNA_enum_get sampleOperator "type") (RNA_int_get sampleOperator "index"),
          Call.WM_event_add_notifier sampleExternals.NC_OBJECT (some cl)] :=
  ⟨by decide,
    (cache_item_enable_poll_guards sampleExternals sampleContext sampleOperator
      (sampleWorld 0)).2 (by decide)⟩

end CacheLibrary

namespace OpenSubdiv

/-! ## Properties of the modelled ingestion -/

theorem ingestFace_error (c : OpenSubdiv_Converter) (face : Nat) (e : FailureClass)
    (h : ingestFace c face = .error e) : e = .degenerateInput := by
  unfold ingestFace at h
  by_cases hn : c.get_num_face_verts face < 3
  · simp [hn] at h
    exact h.symm
  · simp [hn] at h

theorem ingestFaces_degenerate (c : OpenSubdiv_Converter) (faces : List Nat)
    (h : ∃ face ∈ faces, c.get_num_face_verts face < 3) :
    ingestFaces c faces = .error .degenerateInput := by
  induction faces with
  | nil =>
    obtain ⟨face, hf, _⟩ := h
    cases hf
  | cons face rest ih =>
    unfold ingestFaces
    cases hface : ingestFace c face with
    | error e => rw [ingestFace_error c face e hface]
    | ok r =>
      have hrest : ∃ face ∈ rest, c.get_num_face_verts face < 3 := by
        obtain ⟨x, hx, hlt⟩ := h
        rcases List.mem_cons.1 hx with hx | hx
        · subst hx
          unfold ingestFace at hface
          simp [hlt] at hface
        · exact ⟨x, hx, hlt⟩
      simp [ih hrest]

/-- The single triangle ingests: every edge is a boundary edge and every vertex
has valence 2 and lies on the boundary. -/
theorem triangle_ingests :
    ingest manifoldOnly triangle = .ok
      { faces := [⟨[0, 1, 2], [0, 1, 2]⟩],
        edges := [⟨0, 1, [0], .boundary⟩, ⟨1, 2, [0], .boundary⟩, ⟨2, 0, [0], .boundary⟩],
        verts := [⟨[0, 2], [0], 2, true⟩, ⟨[0, 1], [0], 2, true⟩, ⟨[1, 2], [0], 2, true⟩] } :=
  rfl

/-- The cross-checks reject the sample converters that break the symmetry, and
step 1 rejects a negative count. -/
theorem ingest_rejects_samples :
    ingest manifoldOnly zeroFaces = .error .degenerateInput ∧
    ingest manifoldOnly negFaces = .error .degenerateInput ∧
    ingest manifoldOnly omittingEdge = .error .malformedAdjacency ∧
    ingest manifoldOnly extraFaceEdge = .error .malformedAdjacency :=
  ⟨rfl, rfl, rfl, rfl⟩

/-- C6: for every converter in which some face `f` of `[0, get_num_faces)` has
`get_num_face_verts(f) < 3` (2 in particular), ingestion fails with the
degenerate-input class, which is what `openSubdiv_createTopologyRefinerDescr`
reports, and no descriptor is produced. -/
theorem ingest_degenerate_face (cfg : Configuration) (c : OpenSubdiv_Converter) (f : Int)
    (h0 : 0 ≤ f) (h1 : f < c.get_num_faces) (h2 : c.get_num_face_verts f < 3) :
    ingest cfg c = .error .degenerateInput ∧
    openSubdiv_createTopologyRefinerDescr cfg c = .failure .degenerateInput ∧
    (openSubdiv_createTopologyRefinerDescr cfg c).descr = none := by
  have hing : ingest cfg c = .error .degenerateInput := by
    unfold ingest
    by_cases hz : c.get_num_verts ≤ 0 ∨ c.get_num_edges ≤ 0 ∨ c.get_num_faces ≤ 0
    · rw [if_pos hz]
    · rw [if_neg hz]
      have hmem : ∃ face ∈ List.range c.get_num_faces.toNat,
          c.get_num_face_verts face < 3 := by
        refine ⟨f.toNat, ?_, ?_⟩
        · rw [List.mem_range]
          omega
        · rw [Int.toNat_of_nonneg h0]
          exact h2
      rw [ingestFaces_degenerate c _ hmem]
  have hcreate : openSubdiv_createTopologyRefinerDescr cfg c = .failure .degenerateInput := by
    unfold openSubdiv_createTopologyRefinerDescr
    rw [hing]
  refine ⟨hing, hcreate, ?_⟩
  rw [hcreate]
  rfl

/-- C6 witness: the triangle whose only face reports 2 vertices. -/
theorem ingest_degenerate_face_witness :
    ((0 : Int) ≤ 0 ∧ (0 : Int) < twoVertFace.get_num_faces ∧
      twoVertFace.get_num_face_verts 0 = 2) ∧
    ingest manifoldOnly twoVertFace = .error .degenerateInput ∧
    openSubdiv_createTopologyRefinerDescr manifoldOnly twoVertFace =
      .failure .degenerateInput ∧
    (openSubdiv_createTopologyRefinerDescr manifoldOnly twoVertFace).descr = none :=
  ⟨⟨by decide, by decide, rfl⟩,
    ingest_degenerate_face manifoldOnly twoVertFace 0 (by decide) (by decide) (by decide)⟩

end OpenSubdiv

